import Mathlib

/-!
Shallow embedding of the notebook
`src/Custom_Script/03_Forecasting_Pipeline.ipynb` of the
solution-accelerator-many-models repository.

The notebook is straight-line code: it builds Azure ML SDK configuration
objects, submits a two-step pipeline once, and afterwards downloads and
parses the predictions.  The embedding records

* the configuration objects exactly as the notebook constructs them
  (`parallel_run_config`, `parallel_run_step`, `upload_predictions_step`,
  `pipeline`, `notebookSubmissions`, `register_predictions_datastore`);
* the sequence of operations the notebook performs (`notebookTrace`),
  each tagged with the library it calls into, or as a local Python
  operation (assignment, builtin call);
* the one locally-computing function `download_predictions`, modelled
  over an explicit run and directory state;
* the pandas parse of `parallel_run_step.txt`
  (`read_csv_space_noheader`, `predictions_dataframe`).
-/

namespace ManyModels

/-- A value passed in a step's `arguments` list: the notebook passes string
literals, the integer literal 8, the `PipelineData` output object and a
`DataReference`. -/
inductive Arg
  | str (s : String)
  | num (n : Nat)
  | data (pipeline_data_name : String)
  | ref (datastore_name : String)
deriving DecidableEq

/-- Model of `azureml.core.Datastore`: the handle data the notebook reads
from it (`account_name`, `account_key`). -/
structure Datastore where
  name : String
  account_name : String
  account_key : String
deriving DecidableEq

/-- Model of `azureml.core.Workspace`: the notebook obtains it from
`Workspace.from_config()` and only uses its default datastore and identity;
both are opaque, so they are parameters of the model. -/
structure Workspace where
  name : String
  default_datastore : Datastore
deriving DecidableEq

/-- Model of `azureml.core.conda_dependencies.CondaDependencies.create`:
the notebook passes `pip_packages=['sklearn', 'joblib']`. -/
structure CondaDependencies where
  pip_packages : List String
deriving DecidableEq

/-- Model of `azureml.core.Environment` after the notebook assigns
`forecast_env.python.conda_dependencies = forecast_conda_deps`. -/
structure Environment where
  name : String
  conda_dependencies : CondaDependencies
deriving DecidableEq

/-- Notebook cell 4.1: the environment for the ParallelRunStep. -/
def forecast_env : Environment :=
  { name := "many_models_environment",
    conda_dependencies := { pip_packages := ["sklearn", "joblib"] } }

/-- Model of `azureml.contrib.pipeline.steps.ParallelRunConfig`: the exact
keyword arguments the notebook passes in cell 4.3. -/
structure ParallelRunConfig where
  source_directory : String
  entry_script : String
  mini_batch_size : String
  run_invocation_timeout : Nat
  error_threshold : Nat
  output_action : String
  environment : Environment
  process_count_per_node : Nat
  compute_target : String
  node_count : Nat
deriving DecidableEq

/-- Notebook cell 4.3: `process_count_per_node = 8`. -/
def process_count_per_node : Nat := 8

/-- Notebook cell 4.3: `node_count = 5`. -/
def node_count : Nat := 5

/-- Notebook cell 4.3: `timeout = 180`. -/
def run_timeout : Nat := 180

/-- Notebook cell 4.3: the `tags` dictionary built by three assignments. -/
def tags : List (String × Nat) :=
  [("node_count", node_count),
   ("process_count_per_node", process_count_per_node),
   ("timeout", run_timeout)]

/-- Notebook cell 4.3: the `ParallelRunConfig(...)` construction. -/
def parallel_run_config : ParallelRunConfig :=
  { source_directory := "./scripts",
    entry_script := "forecast.py",
    mini_batch_size := "1",
    run_invocation_timeout := run_timeout,
    error_threshold := 10,
    output_action := "append_row",
    environment := forecast_env,
    process_count_per_node := process_count_per_node,
    compute_target := "cpucluster",
    node_count := node_count }

/-- Model of `azureml.pipeline.core.PipelineData`: cell 4.4 creates
`PipelineData(name='forecasting_output', datastore=dstore)` on the default
datastore. -/
structure PipelineData where
  name : String
  datastore_name : String
deriving DecidableEq

/-- Cell 4.4: the `forecasting_output` PipelineData, parameterised by the
workspace (its default datastore is opaque). -/
def output_dir (ws : Workspace) : PipelineData :=
  { name := "forecasting_output", datastore_name := ws.default_datastore.name }

/-- A named dataset input: cell 3.0 calls
`Dataset.get_by_name(ws, name='oj_data_small').as_named_input('forecast_10_models')`. -/
structure DatasetConsumptionConfig where
  dataset_name : String
  input_name : String
deriving DecidableEq

/-- Cell 3.0: the dataset input of the forecasting step. -/
def small_dataset_input : DatasetConsumptionConfig :=
  { dataset_name := "oj_data_small", input_name := "forecast_10_models" }

/-- Model of `azureml.contrib.pipeline.steps.ParallelRunStep`: the exact
keyword arguments the notebook passes in cell 4.4. -/
structure ParallelRunStep where
  name : String
  parallel_run_config : ParallelRunConfig
  inputs : List DatasetConsumptionConfig
  output : PipelineData
  allow_reuse : Bool
  arguments : List Arg
deriving DecidableEq

/-- Cell 4.4: the `ParallelRunStep(...)` construction. -/
def parallel_run_step (ws : Workspace) : ParallelRunStep :=
  { name := "many-models-forecasting",
    parallel_run_config := parallel_run_config,
    inputs := [small_dataset_input],
    output := output_dir ws,
    allow_reuse := false,
    arguments :=
      [Arg.str "--forecast_horizon", Arg.num 8,
       Arg.str "--starting_date", Arg.str "1992-10-01",
       Arg.str "--target_column", Arg.str "Quantity",
       Arg.str "--timestamp_column", Arg.str "WeekStarting",
       Arg.str "--model_type", Arg.str "lr",
       Arg.str "--date_freq", Arg.str "W-THU"] }

/-- Model of `azureml.pipeline.steps.PythonScriptStep`: the exact keyword
arguments the notebook passes in cell 5.2. -/
structure PythonScriptStep where
  name : String
  script_name : String
  compute_target : String
  source_directory : String
  inputs : List Arg
  allow_reuse : Bool
  arguments : List Arg
deriving DecidableEq

/-- Cell 5.2: the `PythonScriptStep(...)` construction; its inputs are the
`predictions` DataReference and the `forecasting_output` PipelineData. -/
def upload_predictions_step (ws : Workspace) : PythonScriptStep :=
  { name := "copy_predictions",
    script_name := "copy_predictions.py",
    compute_target := "cpucluster",
    source_directory := "./scripts",
    inputs := [Arg.ref "predictions", Arg.data (output_dir ws).name],
    allow_reuse := false,
    arguments :=
      [Arg.str "--parallel_run_step_output", Arg.data (output_dir ws).name,
       Arg.str "--output_dir", Arg.ref "predictions"] }

/-- A pipeline step is either the ParallelRunStep or the PythonScriptStep. -/
inductive PipelineStep
  | parallelRun (s : ParallelRunStep)
  | pythonScript (s : PythonScriptStep)
deriving DecidableEq

/-- Model of `azureml.pipeline.core.Pipeline`: workspace plus ordered step
list. -/
structure Pipeline where
  workspace_name : String
  steps : List PipelineStep
deriving DecidableEq

/-- Cell 6.0: `Pipeline(workspace=ws, steps=[parallel_run_step, upload_predictions_step])`. -/
def pipeline (ws : Workspace) : Pipeline :=
  { workspace_name := ws.name,
    steps := [PipelineStep.parallelRun (parallel_run_step ws),
              PipelineStep.pythonScript (upload_predictions_step ws)] }

/-- All `Pipeline(...)` constructions the notebook performs: exactly one,
in cell 6.0. -/
def notebookPipelines (ws : Workspace) : List Pipeline := [pipeline ws]

/-- A call to `Experiment.submit`: experiment name, pipeline, tags. -/
structure Submission where
  experiment_name : String
  submitted_pipeline : Pipeline
  tags : List (String × Nat)
deriving DecidableEq

/-- All `submit` calls the notebook performs: exactly one, in cell 6.0, on
the experiment created in cell 2.0 as `Experiment(ws, 'forecasting_pipeline')`. -/
def notebookSubmissions (ws : Workspace) : List Submission :=
  [{ experiment_name := "forecasting_pipeline",
     submitted_pipeline := pipeline ws,
     tags := tags }]

/-- The call record of cell 5.1,
`Datastore.register_azure_blob_container(workspace=ws, datastore_name="predictions",
container_name="predictions", account_name=dstore.account_name,
account_key=dstore.account_key, create_if_not_exists=True)`. -/
structure RegisterBlobCall where
  workspace_name : String
  datastore_name : String
  container_name : String
  account_name : String
  account_key : String
  create_if_not_exists : Bool
deriving DecidableEq

/-- Cell 5.1: the registration call, built from the workspace's default
datastore (`dstore`). -/
def register_predictions_datastore (ws : Workspace) : RegisterBlobCall :=
  { workspace_name := ws.name,
    datastore_name := "predictions",
    container_name := "predictions",
    account_name := ws.default_datastore.account_name,
    account_key := ws.default_datastore.account_key,
    create_if_not_exists := true }

/-- The registration call the notebook issues as a function of the ambient
world state: the notebook never inspects whether the `predictions` container
already exists, so the issued call ignores that state component. -/
def issued_register_call (ws : Workspace) (_container_already_exists : Bool) :
    RegisterBlobCall :=
  register_predictions_datastore ws

/-- Libraries the notebook calls into. -/
inductive Library
  | azureml
  | pandas
  | seaborn
  | matplotlib
deriving DecidableEq

/-- One operation performed by the notebook.  `libraryCall` is a call into
a third-party library; `localAssign` and `localCall` are local Python
operations (variable/attribute/item assignments, builtin or `os`/`pathlib`
calls, comprehensions).  The remaining constructors exist so that absence
of failure handling and of local concurrency is expressible: the notebook
trace contains none of them. -/
inductive NotebookOp
  | libraryCall (lib : Library) (fn : String)
  | localAssign (target : String)
  | localCall (fn : String)
  | tryExceptBlock
  | retryLoop
  | errorBranch
  | threadSpawn
  | processSpawn
deriving DecidableEq

/-- The operations of the notebook, cell by cell, in execution order
(comment markers give the notebook section). -/
def notebookTrace : List NotebookOp :=
  [ -- 1.0 connect to workspace and datastore
    NotebookOp.libraryCall Library.azureml "Workspace.from_config",
    NotebookOp.libraryCall Library.azureml "Workspace.get_default_datastore",
    NotebookOp.localCall "print",
    -- 2.0 create an experiment
    NotebookOp.libraryCall Library.azureml "Experiment",
    -- 3.0 get the dataset
    NotebookOp.libraryCall Library.azureml "Dataset.get_by_name",
    NotebookOp.libraryCall Library.azureml "Dataset.as_named_input",
    -- 4.1 configure environment
    NotebookOp.libraryCall Library.azureml "Environment",
    NotebookOp.libraryCall Library.azureml "CondaDependencies.create",
    NotebookOp.localAssign "forecast_env.python.conda_dependencies",
    -- 4.2 choose a compute target
    NotebookOp.libraryCall Library.azureml "AmlCompute",
    -- 4.3 set up ParallelRunConfig
    NotebookOp.localAssign "process_count_per_node",
    NotebookOp.localAssign "node_count",
    NotebookOp.localAssign "timeout",
    NotebookOp.localAssign "tags",
    NotebookOp.localAssign "tags[node_count]",
    NotebookOp.localAssign "tags[process_count_per_node]",
    NotebookOp.localAssign "tags[timeout]",
    NotebookOp.libraryCall Library.azureml "ParallelRunConfig",
    -- 4.4 set up ParallelRunStep
    NotebookOp.libraryCall Library.azureml "PipelineData",
    NotebookOp.libraryCall Library.azureml "ParallelRunStep",
    -- 5.1 create a data reference
    NotebookOp.libraryCall Library.azureml "Datastore.register_azure_blob_container",
    NotebookOp.libraryCall Library.azureml "DataReference",
    -- 5.2 create PythonScriptStep
    NotebookOp.libraryCall Library.azureml "PythonScriptStep",
    -- 6.0 run the pipeline
    NotebookOp.libraryCall Library.azureml "Pipeline",
    NotebookOp.libraryCall Library.azureml "Experiment.submit",
    -- 7.1 download_predictions(run, target_dir)
    NotebookOp.libraryCall Library.azureml "Run.find_step_run",
    NotebookOp.localCall "list.getitem0",
    NotebookOp.libraryCall Library.azureml "StepRun.get_output_data",
    NotebookOp.localCall "print",
    NotebookOp.libraryCall Library.azureml "PortDataReference.download",
    NotebookOp.localCall "os.path.join",
    NotebookOp.localCall "os.listdir",
    NotebookOp.localCall "list.getitem0",
    NotebookOp.localCall "os.path.join",
    NotebookOp.localCall "Path.iterdir",
    NotebookOp.localCall "sorted.by.getmtime",
    NotebookOp.localCall "list.getitem.last",
    NotebookOp.localCall "os.path.join",
    NotebookOp.localAssign "file_path",
    -- 7.2 convert the file to a dataframe
    NotebookOp.libraryCall Library.pandas "pd.read_csv",
    NotebookOp.localAssign "df.columns",
    NotebookOp.libraryCall Library.pandas "pd.to_datetime",
    NotebookOp.localCall "list.comprehension.date",
    NotebookOp.localAssign "df.WeekStarting",
    NotebookOp.libraryCall Library.pandas "DataFrame.head",
    -- 7.3 visualize the predictions
    NotebookOp.libraryCall Library.seaborn "sns.violinplot",
    NotebookOp.libraryCall Library.matplotlib "Axes.set_title",
    NotebookOp.libraryCall Library.pandas "DataFrame.groupby",
    NotebookOp.libraryCall Library.pandas "SeriesGroupBy.sum",
    NotebookOp.libraryCall Library.pandas "Series.unstack",
    NotebookOp.libraryCall Library.pandas "DataFrame",
    NotebookOp.libraryCall Library.matplotlib "DataFrame.plot",
    NotebookOp.libraryCall Library.matplotlib "plt.title",
    NotebookOp.libraryCall Library.matplotlib "plt.xticks",
    NotebookOp.libraryCall Library.matplotlib "plt.legend",
    NotebookOp.libraryCall Library.matplotlib "plt.xlabel",
    NotebookOp.libraryCall Library.matplotlib "plt.ylabel",
    NotebookOp.libraryCall Library.matplotlib "plt.show",
    NotebookOp.localAssign "store",
    NotebookOp.libraryCall Library.pandas "DataFrame.filter.rows",
    NotebookOp.libraryCall Library.pandas "DataFrame.groupby",
    NotebookOp.libraryCall Library.pandas "SeriesGroupBy.sum",
    NotebookOp.libraryCall Library.pandas "Series.unstack",
    NotebookOp.libraryCall Library.pandas "DataFrame",
    NotebookOp.libraryCall Library.matplotlib "DataFrame.plot",
    NotebookOp.libraryCall Library.matplotlib "plt.legend",
    NotebookOp.libraryCall Library.matplotlib "plt.xticks",
    NotebookOp.libraryCall Library.matplotlib "plt.title",
    NotebookOp.libraryCall Library.matplotlib "plt.xlabel",
    NotebookOp.libraryCall Library.matplotlib "plt.ylabel",
    NotebookOp.libraryCall Library.matplotlib "plt.show" ]

/-- Whether an operation is a call into one of the third-party libraries
(azureml, pandas, seaborn, matplotlib). -/
def isLibraryCall : NotebookOp → Bool
  | NotebookOp.libraryCall _ _ => true
  | _ => false

/-- Whether an operation is failure handling (exception handler, retry, or
an error branch). -/
def isFailureHandling : NotebookOp → Bool
  | NotebookOp.tryExceptBlock => true
  | NotebookOp.retryLoop => true
  | NotebookOp.errorBranch => true
  | _ => false

/-- Whether an operation creates a local thread or process. -/
def spawnsConcurrency : NotebookOp → Bool
  | NotebookOp.threadSpawn => true
  | NotebookOp.processSpawn => true
  | _ => false

/-- A directory entry of `target_dir/azureml` after the port download: its
name and its modification time (`os.path.getmtime`). -/
structure Entry where
  name : String
  mtime : Nat
deriving DecidableEq

/-- Comparison key used by `sorted(..., key=os.path.getmtime)`. -/
def mtimeLE (a b : Entry) : Prop := a.mtime ≤ b.mtime

instance : DecidableRel mtimeLE := fun a b => Nat.decLe a.mtime b.mtime

instance : IsTotal Entry mtimeLE := ⟨fun a b => Nat.le_total a.mtime b.mtime⟩

instance : IsTrans Entry mtimeLE := ⟨fun _ _ _ h₁ h₂ => Nat.le_trans h₁ h₂⟩

/-- Model of Python's `sorted(entries, key=os.path.getmtime)`: a stable
ascending sort on the modification time.  `List.insertionSort` is stable,
so it computes the same list as CPython's stable sort. -/
def sortByMtime (l : List Entry) : List Entry := List.insertionSort mtimeLE l

/-- Model of the run handle: `run.find_step_run(name)` returns the step
runs of the pipeline run whose step name matches, so the run is modelled
by the list of its step run names, in the order the SDK returns them. -/
structure Run where
  step_run_names : List String
deriving DecidableEq

/-- Model of `azureml.core.Run.find_step_run`: the sub-runs whose name
equals the argument. -/
def find_step_run (run : Run) (name : String) : List String :=
  run.step_run_names.filter (fun s => s = name)

/-- A call to `PortDataReference.download` as issued by
`download_predictions`: port name, target directory, and the keyword flags
`show_progress=True, overwrite=True`. -/
structure PortDownload where
  port_name : String
  target_dir : String
  show_progress : Bool
  overwrite : Bool
deriving DecidableEq

/-- Outcome of a `download_predictions` call: a returned path, or an
uncaught Python exception. -/
inductive PyResult
  | ok (path : String)
  | raisedIndexError
  | raisedFileNotFoundError
deriving DecidableEq

/-- Model of `os.path.join` on the relative path fragments the notebook
joins. -/
def ospath_join (a b : String) : String := a ++ "/" ++ b

/-- Model of the notebook's `download_predictions(run, target_dir)`:

```
stitch_run = run.find_step_run("many-models-forecasting")[0]
port_data = stitch_run.get_output_data('forecasting_output')
port_data.download(target_dir, show_progress=True, overwrite=True)
step_hash = os.listdir(os.path.join(target_dir, 'azureml'))[0]
latest = sorted(Path(os.path.join(target_dir, 'azureml')).iterdir(), key=os.path.getmtime)
return os.path.join(latest[-1], 'forecasting_output')
```

`azureml_dir` is the state of `target_dir/azureml` after the download call
(`none` when the directory does not exist, otherwise its entries in the
order the operating system enumerates them, shared by `os.listdir` and
`Path.iterdir`).  The result pairs the `PortDataReference.download` calls
issued with the returned path or the exception raised: indexing `[0]` on
an empty step-run list or an empty listing raises IndexError, listing a
missing directory raises FileNotFoundError, and `latest[-1]` on an empty
list would raise IndexError. -/
def download_predictions (run : Run) (target_dir : String)
    (azureml_dir : Option (List Entry)) : List PortDownload × PyResult :=
  match find_step_run run "many-models-forecasting" with
  | [] => ([], PyResult.raisedIndexError)
  | _stitch_run :: _ =>
    let downloads := [PortDownload.mk "forecasting_output" target_dir true true]
    match azureml_dir with
    | none => (downloads, PyResult.raisedFileNotFoundError)
    | some entries =>
      match entries.head? with
      | none => (downloads, PyResult.raisedIndexError)
      | some _step_hash =>
        match (sortByMtime entries).getLast? with
        | none => (downloads, PyResult.raisedIndexError)
        | some latest_entry =>
          (downloads,
           PyResult.ok (ospath_join
             (ospath_join (ospath_join target_dir "azureml") latest_entry.name)
             "forecasting_output"))

/-- Whether a `download_predictions` outcome is a returned path rather
than an exception. -/
def result_isOk : PyResult → Bool
  | PyResult.ok _ => true
  | _ => false

/-- A pandas column label: the integer labels produced by `header=None`,
or a string label assigned through `df.columns`. -/
inductive ColLabel
  | idx (n : Nat)
  | name (s : String)
deriving DecidableEq

/-- Model of a pandas dataframe at the granularity the notebook uses:
column labels and rows of string fields. -/
structure DataFrame where
  columns : List ColLabel
  rows : List (List String)
deriving DecidableEq

/-- Splits a list of characters at every single space, keeping empty
fields, as pandas does for `sep=" "`. -/
def splitFieldsAux : List Char → List Char → List (List Char)
  | [], acc => [acc.reverse]
  | c :: cs, acc =>
    if c = ' ' then acc.reverse :: splitFieldsAux cs []
    else splitFieldsAux cs (c :: acc)

/-- Splits one text line at every single space character. -/
def splitOnSpace (line : String) : List String :=
  (splitFieldsAux line.data []).map (fun cs => String.mk cs)

/-- Model of `pd.read_csv(path, sep=" ", header=None)` on the lines of the
downloaded file: every line is split at single spaces, no line is consumed
as a header, and the columns get the integer labels `0..n-1` where `n` is
the field count of the first line.  An empty file raises EmptyDataError
and a file whose rows do not all have the same field count is not
well-formed; both are modelled as `none`. -/
def read_csv_space_noheader (lines : List String) : Option DataFrame :=
  match lines.map splitOnSpace with
  | [] => none
  | r :: rs =>
    if (r :: rs).all (fun row => row.length = r.length) then
      some { columns := (List.range r.length).map ColLabel.idx, rows := r :: rs }
    else none

/-- Model of the assignment `df.columns = names`: pandas raises a length
mismatch error unless the label list has exactly as many entries as the
dataframe has columns. -/
def set_dataframe_columns (df : DataFrame) (names : List String) : Option DataFrame :=
  if names.length = df.columns.length then
    some { df with columns := names.map ColLabel.name }
  else none

/-- Cell 7.2 of the notebook:
`df = pd.read_csv(file_path + '/parallel_run_step.txt', sep=" ", header=None)`
followed by
`df.columns = ['WeekStarting', 'Predictions', 'Store', 'Brand']`. -/
def predictions_dataframe (lines : List String) : Option DataFrame :=
  (read_csv_space_noheader lines).bind
    (fun df => set_dataframe_columns df ["WeekStarting", "Predictions", "Store", "Brand"])

/-- Helper: the element reported by `getLast?` is a member of the list. -/
theorem mem_of_getLast?_eq {α : Type*} {l : List α} {a : α}
    (h : l.getLast? = some a) : a ∈ l := by
  obtain ⟨hne, rfl⟩ := List.mem_getLast?_eq_getLast (Option.mem_def.mpr h)
  exact List.getLast_mem hne

/-- Helper: in a pairwise-related list, every member is the last element
or related to it. -/
theorem pairwise_rel_getLast {α : Type*} {R : α → α → Prop} :
    ∀ (l : List α) (a x : α), l.getLast? = some a → l.Pairwise R → x ∈ l →
      x = a ∨ R x a
  | [], _, _, h, _, _ => by simp at h
  | [b], a, x, h, _, hx => by
      simp only [List.getLast?_singleton, Option.some.injEq] at h
      simp only [List.mem_singleton] at hx
      exact Or.inl (hx.trans h)
  | b :: c :: t, a, x, h, hp, hx => by
      rw [List.getLast?_cons_cons] at h
      rcases List.pairwise_cons.mp hp with ⟨hb, hp2⟩
      rcases List.mem_cons.mp hx with rfl | hx2
      · exact Or.inr (hb a (mem_of_getLast?_eq h))
      · exact pairwise_rel_getLast (c :: t) a x h hp2 hx2

/-- Helper: sorting a nonempty listing is nonempty. -/
theorem sortByMtime_ne_nil {l : List Entry} (h : l ≠ []) : sortByMtime l ≠ [] := by
  intro hnil
  have hlen := (List.perm_insertionSort mtimeLE l).length_eq
  rw [sortByMtime] at hnil
  rw [hnil] at hlen
  exact h (List.eq_nil_of_length_eq_zero hlen.symm)

/-- Helper: the last element of the mtime-sorted listing is a member of
the listing and its mtime is greatest. -/
theorem sortByMtime_getLast_is_max {l : List Entry} {a : Entry}
    (h : (sortByMtime l).getLast? = some a) :
    a ∈ l ∧ ∀ x ∈ l, x.mtime ≤ a.mtime := by
  have hperm := List.perm_insertionSort mtimeLE l
  have hsorted : (sortByMtime l).Pairwise mtimeLE := List.sorted_insertionSort mtimeLE l
  have hmem : a ∈ sortByMtime l := mem_of_getLast?_eq h
  refine ⟨hperm.mem_iff.mp hmem, fun x hx => ?_⟩
  have hx2 : x ∈ sortByMtime l := hperm.mem_iff.mpr hx
  rcases pairwise_rel_getLast (sortByMtime l) a x h hsorted hx2 with rfl | hle
  · exact Nat.le_refl _
  · exact hle

/-- Helper: when exactly one entry attains the greatest mtime, it is the
last element of the sorted listing, whatever the enumeration order. -/
theorem sortByMtime_getLast_of_unique_max {l : List Entry} {emax : Entry}
    (hmem : emax ∈ l) (hmax : ∀ e ∈ l, e ≠ emax → e.mtime < emax.mtime) :
    (sortByMtime l).getLast? = some emax := by
  have hne : l ≠ [] := List.ne_nil_of_mem hmem
  cases hgl : (sortByMtime l).getLast? with
  | none => exact absurd (List.getLast?_eq_none_iff.mp hgl) (sortByMtime_ne_nil hne)
  | some a =>
    obtain ⟨hal, hmaxa⟩ := sortByMtime_getLast_is_max hgl
    by_cases hcase : a = emax
    · rw [hcase]
    · exact absurd (Nat.lt_of_le_of_lt (hmaxa emax hmem) (hmax a hal hcase))
        (Nat.lt_irrefl _)

/-- Claim C1: the notebook builds exactly one pipeline, whose steps are,
in order, the ParallelRunStep named many-models-forecasting running
forecast.py and the PythonScriptStep named copy_predictions running
copy_predictions.py, and submits it exactly once to the experiment named
forecasting_pipeline. -/
theorem one_pipeline_two_steps_one_submit (ws : Workspace) :
    notebookPipelines ws = [pipeline ws] ∧
    (pipeline ws).steps =
      [PipelineStep.parallelRun (parallel_run_step ws),
       PipelineStep.pythonScript (upload_predictions_step ws)] ∧
    (parallel_run_step ws).name = "many-models-forecasting" ∧
    (parallel_run_step ws).parallel_run_config.entry_script = "forecast.py" ∧
    (upload_predictions_step ws).name = "copy_predictions" ∧
    (upload_predictions_step ws).script_name = "copy_predictions.py" ∧
    notebookSubmissions ws =
      [{ experiment_name := "forecasting_pipeline",
         submitted_pipeline := pipeline ws,
         tags := tags }] :=
  ⟨rfl, rfl, rfl, rfl, rfl, rfl, rfl⟩

/-- Claim C2: parsing the downloaded parallel_run_step.txt as
space-separated text with no header and assigning the four column names
yields, for every well-formed (nonempty, uniformly four-field) input, a
dataframe whose columns are exactly WeekStarting, Predictions, Store,
Brand in this order. -/
theorem predictions_dataframe_columns (lines : List String)
    (hne : lines ≠ [])
    (hw : ∀ line ∈ lines, (splitOnSpace line).length = 4) :
    ∃ df, predictions_dataframe lines = some df ∧
      df.columns = [ColLabel.name "WeekStarting", ColLabel.name "Predictions",
                    ColLabel.name "Store", ColLabel.name "Brand"] := by
  cases lines with
  | nil => exact absurd rfl hne
  | cons l ls =>
    have hr : (splitOnSpace l).length = 4 := hw l (List.mem_cons_self l ls)
    have hall : ((splitOnSpace l :: ls.map splitOnSpace).all
        (fun row => row.length = (splitOnSpace l).length)) = true := by
      rw [List.all_eq_true]
      intro row hrow
      rcases List.mem_cons.mp hrow with rfl | hmem
      · exact decide_eq_true rfl
      · obtain ⟨line, hline, rfl⟩ := List.mem_map.mp hmem
        exact decide_eq_true (by rw [hw line (List.mem_cons_of_mem l hline), hr])
    refine ⟨{ columns := [ColLabel.name "WeekStarting", ColLabel.name "Predictions",
                          ColLabel.name "Store", ColLabel.name "Brand"],
              rows := splitOnSpace l :: ls.map splitOnSpace }, ?_, rfl⟩
    rw [hr] at hall
    simp only [predictions_dataframe, read_csv_space_noheader, List.map_cons, hr, hall,
      if_true, Option.bind_some, set_dataframe_columns, List.length_map,
      List.length_range, List.length_cons, List.length_nil, List.map_nil]
    rfl

/-- Witness for claim C2 at a concrete two-line file. -/
theorem predictions_dataframe_columns_witness :
    (["1992-10-01 8.6 Store1001 tropicana",
      "1992-10-08 9.1 Store1001 dominicks"] ≠ ([] : List String)) ∧
    ∃ df, predictions_dataframe
        ["1992-10-01 8.6 Store1001 tropicana",
         "1992-10-08 9.1 Store1001 dominicks"] = some df ∧
      df.columns = [ColLabel.name "WeekStarting", ColLabel.name "Predictions",
                    ColLabel.name "Store", ColLabel.name "Brand"] :=
  ⟨by decide,
   predictions_dataframe_columns
     ["1992-10-01 8.6 Store1001 tropicana",
      "1992-10-08 9.1 Store1001 dominicks"] (by decide) (by decide)⟩

/-- Claim C3: for every run containing a step named
many-models-forecasting and every target directory, download_predictions
downloads the forecasting_output port data into the target directory and
returns the path joining the entry of target_dir/azureml with the latest
modification time (the last element of the entries sorted by mtime) with
the suffix forecasting_output. -/
theorem download_predictions_returns_latest (run : Run) (target_dir : String)
    (entries : List Entry) (latest_entry : Entry)
    (hstep : find_step_run run "many-models-forecasting" ≠ [])
    (hlast : (sortByMtime entries).getLast? = some latest_entry) :
    download_predictions run target_dir (some entries) =
      ([PortDownload.mk "forecasting_output" target_dir true true],
       PyResult.ok (ospath_join
         (ospath_join (ospath_join target_dir "azureml") latest_entry.name)
         "forecasting_output")) := by
  have hne : entries ≠ [] := by
    intro hnil
    rw [hnil] at hlast
    simp [sortByMtime, List.insertionSort] at hlast
  cases hf : find_step_run run "many-models-forecasting" with
  | nil => exact absurd hf hstep
  | cons a as =>
    cases entries with
    | nil => exact absurd rfl hne
    | cons e es => simp [download_predictions, hf, hlast]

/-- Witness for claim C3 at a concrete run and directory state. -/
theorem download_predictions_returns_latest_witness :
    (find_step_run (Run.mk ["many-models-forecasting"]) "many-models-forecasting" ≠ []) ∧
    ((sortByMtime [Entry.mk "h1" 3, Entry.mk "h2" 7]).getLast? = some (Entry.mk "h2" 7)) ∧
    download_predictions (Run.mk ["many-models-forecasting"]) "output"
        (some [Entry.mk "h1" 3, Entry.mk "h2" 7]) =
      ([PortDownload.mk "forecasting_output" "output" true true],
       PyResult.ok (ospath_join
         (ospath_join (ospath_join "output" "azureml") (Entry.mk "h2" 7).name)
         "forecasting_output")) :=
  ⟨by decide, by decide,
   download_predictions_returns_latest (Run.mk ["many-models-forecasting"]) "output"
     [Entry.mk "h1" 3, Entry.mk "h2" 7] (Entry.mk "h2" 7) (by decide) (by decide)⟩

/-- Claim C4: the only error-related configuration in the notebook is the
numeric error_threshold parameter with value 10 passed in
ParallelRunConfig; the notebook trace contains no exception handler, no
retry and no error branch of its own. -/
theorem error_handling_is_threshold_only :
    parallel_run_config.error_threshold = 10 ∧
    notebookTrace.all (fun op => !(isFailureHandling op)) = true :=
  ⟨rfl, rfl⟩

/-- Counterexample to claim C5 as stated: not every operation the notebook
performs is a call into a third-party library; the trace contains local
operations (assignments, printing, and the filesystem selection inside
download_predictions). -/
theorem notebook_has_local_operations :
    ¬ (notebookTrace.all isLibraryCall = true) := by decide

/-- Claim C5 (amended): every operation of the notebook is a call into the
third-party libraries (azureml, pandas, seaborn, matplotlib) except an
explicit residue of local Python operations: printing, the assignments
building variables, tags and dataframe columns, the date-conversion
comprehension, and the local filesystem selection in download_predictions
(indexing, os.path.join, os.listdir, Path.iterdir, sorting by mtime). -/
theorem notebook_operations_classified :
    notebookTrace.filter (fun op => !(isLibraryCall op)) =
      [NotebookOp.localCall "print",
       NotebookOp.localAssign "forecast_env.python.conda_dependencies",
       NotebookOp.localAssign "process_count_per_node",
       NotebookOp.localAssign "node_count",
       NotebookOp.localAssign "timeout",
       NotebookOp.localAssign "tags",
       NotebookOp.localAssign "tags[node_count]",
       NotebookOp.localAssign "tags[process_count_per_node]",
       NotebookOp.localAssign "tags[timeout]",
       NotebookOp.localCall "list.getitem0",
       NotebookOp.localCall "print",
       NotebookOp.localCall "os.path.join",
       NotebookOp.localCall "os.listdir",
       NotebookOp.localCall "list.getitem0",
       NotebookOp.localCall "os.path.join",
       NotebookOp.localCall "Path.iterdir",
       NotebookOp.localCall "sorted.by.getmtime",
       NotebookOp.localCall "list.getitem.last",
       NotebookOp.localCall "os.path.join",
       NotebookOp.localAssign "file_path",
       NotebookOp.localAssign "df.columns",
       NotebookOp.localCall "list.comprehension.date",
       NotebookOp.localAssign "df.WeekStarting",
       NotebookOp.localAssign "store"] := by decide

/-- Counterexample to claim C6 as stated: download_predictions does
compute its result by local selection and sorting logic; with identical
platform responses and identical directory entries, changing only the
local modification times changes the returned path. -/
theorem download_predictions_depends_on_mtimes :
    (download_predictions (Run.mk ["many-models-forecasting"]) "output"
        (some [Entry.mk "h1" 1, Entry.mk "h2" 2])).2 ≠
    (download_predictions (Run.mk ["many-models-forecasting"]) "output"
        (some [Entry.mk "h1" 2, Entry.mk "h2" 1])).2 := by decide

/-- Claim C6 (amended): the notebook does contain one piece of locally
verifiable algorithmic behavior: download_predictions selects, by local
sorting on modification times, an entry of maximal mtime and returns its
path. -/
theorem download_predictions_local_selection (run : Run) (target_dir : String)
    (entries : List Entry)
    (hstep : find_step_run run "many-models-forecasting" ≠ [])
    (hne : entries ≠ []) :
    ∃ e ∈ entries, (∀ x ∈ entries, x.mtime ≤ e.mtime) ∧
      (download_predictions run target_dir (some entries)).2 =
        PyResult.ok (ospath_join
          (ospath_join (ospath_join target_dir "azureml") e.name)
          "forecasting_output") := by
  cases hgl : (sortByMtime entries).getLast? with
  | none => exact absurd (List.getLast?_eq_none_iff.mp hgl) (sortByMtime_ne_nil hne)
  | some a =>
    obtain ⟨hal, hmaxa⟩ := sortByMtime_getLast_is_max hgl
    refine ⟨a, hal, hmaxa, ?_⟩
    rw [download_predictions_returns_latest run target_dir entries a hstep hgl]

/-- Witness for the amended claim C6 at a concrete run and directory
state. -/
theorem download_predictions_local_selection_witness :
    ∃ e ∈ [Entry.mk "h1" 3, Entry.mk "h2" 9, Entry.mk "h3" 4],
      (∀ x ∈ [Entry.mk "h1" 3, Entry.mk "h2" 9, Entry.mk "h3" 4],
          x.mtime ≤ e.mtime) ∧
      (download_predictions (Run.mk ["many-models-forecasting"]) "output"
          (some [Entry.mk "h1" 3, Entry.mk "h2" 9, Entry.mk "h3" 4])).2 =
        PyResult.ok (ospath_join
          (ospath_join (ospath_join "output" "azureml") e.name)
          "forecasting_output") :=
  download_predictions_local_selection (Run.mk ["many-models-forecasting"]) "output"
    [Entry.mk "h1" 3, Entry.mk "h2" 9, Entry.mk "h3" 4] (by decide) (by decide)

/-- Claim C7: the notebook only configures the platform's parallelism,
passing process_count_per_node 8, node_count 5 and mini_batch_size "1" in
ParallelRunConfig, and its own trace creates no thread and no process. -/
theorem parallelism_delegated_to_platform :
    parallel_run_config.process_count_per_node = 8 ∧
    parallel_run_config.node_count = 5 ∧
    parallel_run_config.mini_batch_size = "1" ∧
    notebookTrace.all (fun op => !(spawnsConcurrency op)) = true :=
  ⟨rfl, rfl, rfl, rfl⟩

/-- Claim C8: download_predictions returns a path exactly when the run has
a step run named many-models-forecasting and target_dir/azureml exists
with at least one entry after the download; in every other case it raises
an indexing or filesystem error. -/
theorem download_predictions_ok_iff (run : Run) (target_dir : String)
    (azureml_dir : Option (List Entry)) :
    result_isOk (download_predictions run target_dir azureml_dir).2 = true ↔
      (find_step_run run "many-models-forecasting" ≠ [] ∧
        ∃ entries, azureml_dir = some entries ∧ entries ≠ []) := by
  cases hf : find_step_run run "many-models-forecasting" with
  | nil =>
    simp [download_predictions, hf, result_isOk]
  | cons a as =>
    cases azureml_dir with
    | none => simp [download_predictions, hf, result_isOk]
    | some entries =>
      cases entries with
      | nil => simp [download_predictions, hf, result_isOk]
      | cons e es =>
        cases hgl : (sortByMtime (e :: es)).getLast? with
        | none =>
          exact absurd (List.getLast?_eq_none_iff.mp hgl)
            (sortByMtime_ne_nil (List.cons_ne_nil e es))
        | some b =>
          simp [download_predictions, hf, hgl, result_isOk]

/-- Counterexample to claim C9 as stated: with two entries sharing the
same (maximal) modification time, two enumeration orders of the same
directory contents make download_predictions return different paths,
because Python's sort is stable. -/
theorem download_predictions_tie_order_dependence :
    download_predictions (Run.mk ["many-models-forecasting"]) "output"
        (some [Entry.mk "h1" 5, Entry.mk "h2" 5]) ≠
      download_predictions (Run.mk ["many-models-forecasting"]) "output"
        (some [Entry.mk "h2" 5, Entry.mk "h1" 5]) := by decide

/-- Claim C9 (amended): the unused step_hash value never influences the
result, and whenever exactly one entry attains the maximal modification
time, download_predictions returns the same value on any two enumeration
orders of the same directory contents with the same modification times. -/
theorem download_predictions_order_independent (run : Run) (target_dir : String)
    (l₁ l₂ : List Entry) (hperm : l₁.Perm l₂) (emax : Entry) (hmem : emax ∈ l₁)
    (hmax : ∀ e ∈ l₁, e ≠ emax → e.mtime < emax.mtime) :
    download_predictions run target_dir (some l₁) =
      download_predictions run target_dir (some l₂) := by
  have h₁ : (sortByMtime l₁).getLast? = some emax :=
    sortByMtime_getLast_of_unique_max hmem hmax
  have h₂ : (sortByMtime l₂).getLast? = some emax :=
    sortByMtime_getLast_of_unique_max (hperm.mem_iff.mp hmem)
      (fun e he => hmax e (hperm.mem_iff.mpr he))
  cases hf : find_step_run run "many-models-forecasting" with
  | nil => simp [download_predictions, hf]
  | cons a as =>
    cases l₁ with
    | nil => exact absurd hmem (List.not_mem_nil emax)
    | cons e es =>
      cases l₂ with
      | nil =>
        have := hperm.length_eq
        simp at this
      | cons f fs => simp [download_predictions, hf, h₁, h₂]

/-- Witness for the amended claim C9 at two concrete enumeration orders of
the same directory contents. -/
theorem download_predictions_order_independent_witness :
    download_predictions (Run.mk ["many-models-forecasting"]) "output"
        (some [Entry.mk "h1" 3, Entry.mk "h2" 9]) =
      download_predictions (Run.mk ["many-models-forecasting"]) "output"
        (some [Entry.mk "h2" 9, Entry.mk "h1" 3]) :=
  download_predictions_order_independent (Run.mk ["many-models-forecasting"]) "output"
    [Entry.mk "h1" 3, Entry.mk "h2" 9] [Entry.mk "h2" 9, Entry.mk "h1" 3]
    (by decide) (Entry.mk "h2" 9) (by decide) (by decide)

/-- Claim C10: the predictions output datastore registration always reuses
the account name and account key of the workspace's default datastore,
passes create_if_not_exists true, and the issued call does not depend on
whether the predictions container already exists. -/
theorem predictions_datastore_registration (ws : Workspace) (b₁ b₂ : Bool) :
    (register_predictions_datastore ws).account_name =
      ws.default_datastore.account_name ∧
    (register_predictions_datastore ws).account_key =
      ws.default_datastore.account_key ∧
    (register_predictions_datastore ws).create_if_not_exists = true ∧
    (register_predictions_datastore ws).datastore_name = "predictions" ∧
    (register_predictions_datastore ws).container_name = "predictions" ∧
    issued_register_call ws b₁ = issued_register_call ws b₂ :=
  ⟨rfl, rfl, rfl, rfl, rfl, rfl⟩

end ManyModels
